import Mathlib

/-!
Verification of the `websocket` package of the go_libs repository
(`src/websocket/websocket.go`) against its natural-language specification.

The Go code is shallowly embedded: byte streams are lists of naturals
(every element below 256 on real wire data), Go `string` values are kept as
Lean `String` for header text and as byte lists where the code treats them
as raw bytes, `int64` values that can overflow are reduced modulo 2^64 with
an explicit signed reinterpretation, and the process-global mutable state
(`global_websocket_count`, `global_websockets`, `global_id_gen`) is passed
around explicitly as a `Global` record.  Side effects of a connection
(frames sent, handler invocations, closing the transport) are collected in
an `Effects` record.
-/

namespace GoWebsocket

set_option maxRecDepth 10000

/-! ## Constants from websocket.go (lines 32-45) -/

def global_frame_max_size : Int := 1024 * 1024

def global_max_websockets : Int := 1000

def ERROR_CODE_NORMAL_CLOSURE : Nat := 1000

def OPCODE_CONTINUATION : Nat := 0x0

def OPCODE_TEXT : Nat := 0x1

def OPCODE_BINARY : Nat := 0x2

def OPCODE_CLOSE : Nat := 0x8

def OPCODE_PING : Nat := 0x9

def OPCODE_PONG : Nat := 0xA

/-! ## Small helpers for the embedding -/

/-- Reinterpret the low 64 bits of a natural number as a signed two's
complement `int64`, as Go does when bytes are shifted into an `int64`. -/
def toInt64 (n : Nat) : Int :=
  if n % 18446744073709551616 < 9223372036854775808 then
    ((n % 18446744073709551616 : Nat) : Int)
  else
    ((n % 18446744073709551616 : Nat) : Int) - 18446744073709551616

/-- True exactly on `Except.error`. -/
def isErr {α : Type} (e : Except String α) : Bool :=
  match e with
  | .error _ => true
  | .ok _ => false

/-- Bytes of an ASCII string (Go strings are byte sequences; every string
handled by the websocket package here is ASCII, where the UTF-8 bytes are
the code points). -/
def strBytes (s : String) : List Nat :=
  s.data.map Char.toNat

/-- Embeds Go `strings.Contains`: true when `sub` occurs contiguously in `s`. -/
def containsSubstr (s sub : String) : Bool :=
  (List.range (s.data.length + 1)).any (fun i => sub.data.isPrefixOf (s.data.drop i))

/-! ## maskData (websocket.go lines 201-205)

`maskData` XORs every payload byte with the mask key byte at index
`i mod 4`.  The Go code mutates `data` in place; the embedding returns the
new list.  The auxiliary function carries the running index `i`. -/

def maskDataAux (mask_key : List Nat) : Nat → List Nat → List Nat
  | _, [] => []
  | i, b :: rest => (b ^^^ mask_key.getD (i % 4) 0) :: maskDataAux mask_key (i + 1) rest

def maskData (mask_key data : List Nat) : List Nat :=
  maskDataAux mask_key 0 data

/-! ## SHA-1 and base64

`sendWebSocketHandshakeResponse` (websocket.go lines 207-224) calls the Go
standard library `crypto/sha1` and `encoding/base64`.  Those are not part
of this repository; they are modelled here from their standard definitions
(RFC 3174 SHA-1 and RFC 4648 base64 with the standard alphabet and `=`
padding), which is what the spec means by `base64(SHA-1(...))`.  All 32-bit
words are naturals reduced modulo 2^32. -/

def sha1_rotl (n x : Nat) : Nat :=
  ((x <<< n) ||| (x >>> (32 - n))) % 4294967296

/-- Merkle-Damgard padding: append 0x80, zero bytes to 56 mod 64, then the
bit length as 8 big-endian bytes. -/
def sha1_pad (msg : List Nat) : List Nat :=
  let len := msg.length
  let bits := len * 8
  let zeros := (119 - len % 64) % 64
  msg ++ 0x80 :: List.replicate zeros 0 ++
    [bits >>> 56 &&& 0xFF, bits >>> 48 &&& 0xFF, bits >>> 40 &&& 0xFF, bits >>> 32 &&& 0xFF,
     bits >>> 24 &&& 0xFF, bits >>> 16 &&& 0xFF, bits >>> 8 &&& 0xFF, bits &&& 0xFF]

/-- Big-endian 32-bit words from a byte list. -/
def bytesToWords32 : List Nat → List Nat
  | b0 :: b1 :: b2 :: b3 :: rest =>
      (b0 <<< 24 ||| b1 <<< 16 ||| b2 <<< 8 ||| b3) :: bytesToWords32 rest
  | _ => []

/-- Message-schedule extension, keeping the schedule in reverse order so the
words W[t-3], W[t-8], W[t-14], W[t-16] sit at indices 2, 7, 13, 15. -/
def sha1_extend : Nat → List Nat → List Nat
  | 0, wrev => wrev
  | fuel + 1, wrev =>
      let w := sha1_rotl 1 (wrev.getD 2 0 ^^^ wrev.getD 7 0 ^^^ wrev.getD 13 0 ^^^ wrev.getD 15 0)
      sha1_extend fuel (w :: wrev)

def sha1_round (t w : Nat) (st : Nat × Nat × Nat × Nat × Nat) : Nat × Nat × Nat × Nat × Nat :=
  let (a, b, c, d, e) := st
  let f :=
    if t < 20 then (b &&& c) ||| ((b ^^^ 0xFFFFFFFF) &&& d)
    else if t < 40 then b ^^^ c ^^^ d
    else if t < 60 then (b &&& c) ||| (b &&& d) ||| (c &&& d)
    else b ^^^ c ^^^ d
  let k :=
    if t < 20 then 0x5A827999
    else if t < 40 then 0x6ED9EBA1
    else if t < 60 then 0x8F1BBCDC
    else 0xCA62C1D6
  let temp := (sha1_rotl 5 a + f + e + k + w) % 4294967296
  (temp, a, sha1_rotl 30 b, c, d)

def sha1_compress (h : Nat × Nat × Nat × Nat × Nat) (block : List Nat) :
    Nat × Nat × Nat × Nat × Nat :=
  let w80 := (sha1_extend 64 (bytesToWords32 block).reverse).reverse
  let st := ((List.range 80).zip w80).foldl (fun st tw => sha1_round tw.1 tw.2 st) h
  ((h.1 + st.1) % 4294967296,
   (h.2.1 + st.2.1) % 4294967296,
   (h.2.2.1 + st.2.2.1) % 4294967296,
   (h.2.2.2.1 + st.2.2.2.1) % 4294967296,
   (h.2.2.2.2 + st.2.2.2.2) % 4294967296)

def sha1_blocks : Nat → (Nat × Nat × Nat × Nat × Nat) → List Nat → Nat × Nat × Nat × Nat × Nat
  | 0, h, _ => h
  | fuel + 1, h, l => sha1_blocks fuel (sha1_compress h (l.take 64)) (l.drop 64)

def word32ToBytes (w : Nat) : List Nat :=
  [w >>> 24 &&& 0xFF, w >>> 16 &&& 0xFF, w >>> 8 &&& 0xFF, w &&& 0xFF]

def sha1 (msg : List Nat) : List Nat :=
  let p := sha1_pad msg
  let h := sha1_blocks (p.length / 64)
    (0x67452301, 0xEFCDAB89, 0x98BADCFE, 0x10325476, 0xC3D2E1F0) p
  word32ToBytes h.1 ++ word32ToBytes h.2.1 ++ word32ToBytes h.2.2.1 ++
    word32ToBytes h.2.2.2.1 ++ word32ToBytes h.2.2.2.2

def base64_chars : List Char :=
  "ABCDEFGHIJKLMNOPQRSTUVWXYZabcdefghijklmnopqrstuvwxyz0123456789+/".data

def b64c (n : Nat) : Char :=
  base64_chars.getD n 'A'

def base64_chunks : List Nat → List Char
  | [] => []
  | [a] => [b64c (a >>> 2), b64c ((a &&& 0x3) <<< 4), '=', '=']
  | [a, b] => [b64c (a >>> 2), b64c ((a &&& 0x3) <<< 4 ||| (b >>> 4)), b64c ((b &&& 0xF) <<< 2), '=']
  | a :: b :: c :: rest =>
      b64c (a >>> 2) :: b64c ((a &&& 0x3) <<< 4 ||| (b >>> 4)) ::
        b64c ((b &&& 0xF) <<< 2 ||| (c >>> 6)) :: b64c (c &&& 0x3F) :: base64_chunks rest

def base64_encode (bytes : List Nat) : String :=
  String.mk (base64_chunks bytes)

/-! ## Handshake response (websocket.go lines 207-224)

`sendWebSocketHandshakeResponse` computes the accept key and writes the
response; the embedding returns the exact text written to the stream. -/

def websocket_guid : String := "258EAFA5-E914-47DA-95CA-C5AB0DC85B11"

def computeAcceptKey (client_key : String) : String :=
  base64_encode (sha1 (strBytes (client_key ++ websocket_guid)))

def sendWebSocketHandshakeResponse (client_key ws_protocol ws_extensions : String) : String :=
  "HTTP/1.1 101 Switching Protocols\r\n" ++
  "Upgrade: websocket\r\n" ++
  "Connection: Upgrade\r\n" ++
  ("Sec-WebSocket-Accept: " ++ computeAcceptKey client_key ++ "\r\n") ++
  (if ws_protocol != "" then "Sec-WebSocket-Protocol: " ++ ws_protocol ++ "\r\n" else "") ++
  (if ws_extensions != "" then "Sec-WebSocket-Extensions: " ++ ws_extensions ++ "\r\n" else "") ++
  "\r\n"

/-! ## Frame encoding: sendFrame (websocket.go lines 346-405)

The embedding returns the bytes written to the stream (header immediately
followed by the possibly masked payload); a write/flush failure of the
transport is outside the encoder and is not modelled here. -/

def sendFrame (opcode : Nat) (mask_key payload : List Nat) : Except String (List Nat) :=
  let payload_len := payload.length
  let fin := 0x80
  if opcode > 0x0F then .error "Invalid opcode"
  else
    let b1 := fin ||| opcode
    let masked := if mask_key.length == 4 then 0x80 else 0x00
    let payload2 := if mask_key.length == 4 then maskData mask_key payload else payload
    let b2 := masked |||
      (if payload_len ≤ 125 then payload_len
       else if payload_len ≤ 65535 then 126
       else 127)
    let ext : List Nat :=
      if payload_len ≤ 125 then []
      else if payload_len ≤ 65535 then
        [payload_len >>> 8 &&& 0xFF, payload_len &&& 0xFF]
      else
        [payload_len >>> 56 &&& 0xFF, payload_len >>> 48 &&& 0xFF,
         payload_len >>> 40 &&& 0xFF, payload_len >>> 32 &&& 0xFF,
         payload_len >>> 24 &&& 0xFF, payload_len >>> 16 &&& 0xFF,
         payload_len >>> 8 &&& 0xFF, payload_len &&& 0xFF]
    let key := if mask_key.length == 4 then mask_key else []
    .ok (b1 :: b2 :: (ext ++ key ++ payload2))

/-! ## Frame decoding: the parsing phase of readFrame (websocket.go lines 236-322)

`readFrame` first parses one frame off the stream and then dispatches on
the opcode; `parseFrame` embeds the parsing phase.  The stream is a byte
list; running out of bytes corresponds to a read error/EOF from the
transport.  The extended payload length is read into a Go `int64`, so the
eight length bytes are reinterpreted as a signed value via `toInt64`;
`make([]byte, payload_len)` with a negative length panics in Go, modelled
as a distinguished error (no theorem relies on that branch). -/

structure ParsedFrame where
  opcode : Nat
  is_masked : Bool
  payload : List Nat
  rest : List Nat
deriving Repr, DecidableEq

/-- Read exactly `n` bytes off the stream, failing as the Go code does when
the transport cannot supply them. -/
def readExact (n : Nat) (msg : String) (l : List Nat) : Except String (List Nat × List Nat) :=
  if n ≤ l.length then .ok (l.take n, l.drop n) else .error msg

def parseFrame (is_open : Bool) (input : List Nat) : Except String ParsedFrame :=
  match input with
  | [] => .error "read failed"
  | b1 :: input1 =>
  if is_open == false then .error "WebSocket is closed"
  else if !(b1 &&& 0x80 == 0x80) then .error "Fragmented frames are not supported"
  else if (b1 &&& 0x40 == 0x40) || (b1 &&& 0x20 == 0x20) || (b1 &&& 0x10 == 0x10) then
    .error "Unsupported RSV bits set"
  else
    let opcode := b1 &&& 0x0F
    if !(opcode == OPCODE_CONTINUATION || opcode == OPCODE_TEXT || opcode == OPCODE_BINARY ||
         opcode == OPCODE_CLOSE || opcode == OPCODE_PING || opcode == OPCODE_PONG) then
      .error "Unsupported opcode"
    else
      match input1 with
      | [] => .error "read failed"
      | b2 :: input2 =>
      let is_masked := b2 &&& 0x80 == 0x80
      let len0 : Nat := b2 &&& 0x7F
      let step2 : Except String (Int × List Nat) :=
        if len0 == 126 then
          match readExact 2 "Could not read extended payload length" input2 with
          | .error e => .error e
          | .ok (buf, r) =>
              .ok (((buf.getD 0 0 <<< 8 ||| buf.getD 1 0 : Nat) : Int), r)
        else if len0 == 127 then
          match readExact 8 "Could not read extended payload length" input2 with
          | .error e => .error e
          | .ok (buf, r) =>
              .ok (toInt64 (buf.getD 0 0 <<< 56 ||| buf.getD 1 0 <<< 48 |||
                            buf.getD 2 0 <<< 40 ||| buf.getD 3 0 <<< 32 |||
                            buf.getD 4 0 <<< 24 ||| buf.getD 5 0 <<< 16 |||
                            buf.getD 6 0 <<< 8 ||| buf.getD 7 0), r)
        else .ok ((len0 : Int), input2)
      match step2 with
      | .error e => .error e
      | .ok (payload_len, input3) =>
      if payload_len > global_frame_max_size then
        .error "Payload length exceeds maximum frame size"
      else
        match (if is_masked then readExact 4 "Could not read masking key" input3
               else .ok ([0, 0, 0, 0], input3) : Except String (List Nat × List Nat)) with
        | .error e => .error e
        | .ok (mask_key, input4) =>
        if payload_len < 0 then .error "panic: makeslice: len out of range"
        else
          match readExact payload_len.toNat "read failed" input4 with
          | .error e => .error e
          | .ok (data, input5) =>
            .ok { opcode := opcode, is_masked := is_masked,
                  payload := if is_masked then maskData mask_key data else data,
                  rest := input5 }

/-! ## Connection and global state

A `WS` mirrors the `WebSocket` struct (websocket.go lines 51-62); handler
function fields become booleans recording whether a handler is registered,
and handler invocations are collected in `Effects`.  `Global` gathers the
process-global mutable variables (lines 32-34): the admission counter, the
registry of connection ids (`sync.Map` keyed by id) and the id generator. -/

structure WS where
  id : Nat
  ws_protocol : String
  ws_extensions : String
  client_key : String
  is_open : Bool
  hasReceiveBinaryHandler : Bool
  hasReceiveTextHandler : Bool
  hasClosedHandler : Bool
deriving Repr, DecidableEq

structure Global where
  websocket_count : Int
  registry : List Nat
  id_gen : Nat
deriving Repr, DecidableEq

/-- Observable side effects of one connection-level operation: frames
handed to `sendFrame` as (opcode, payload) pairs, payloads handed to the
text/binary handlers, Closed-handler invocations, and closes of the
underlying transport. -/
structure Effects where
  sent : List (Nat × List Nat)
  textCalls : List (List Nat)
  binaryCalls : List (List Nat)
  closedCalls : Nat
  connCloseCalls : Nat
deriving Repr, DecidableEq

def noEffects : Effects :=
  { sent := [], textCalls := [], binaryCalls := [], closedCalls := 0, connCloseCalls := 0 }

/-- Embeds `makeStatusCodeBytes` (websocket.go lines 103-107):
`binary.BigEndian.PutUint16`. -/
def makeStatusCodeBytes (code : Nat) : List Nat :=
  [code >>> 8 &&& 0xFF, code &&& 0xFF]

/-- Embeds `closeWebSocket` (websocket.go lines 109-120).  When the
connection is still open: mark it closed, delete it from the registry, send
a Close frame with the given body, close the transport, decrement the
admission counter, and invoke the Closed handler if registered.  When it is
already closed the whole body is skipped. -/
def closeWebSocket (ws : WS) (gs : Global) (data : List Nat) : WS × Global × Effects :=
  if ws.is_open then
    ({ ws with is_open := false },
     { gs with registry := gs.registry.erase ws.id,
               websocket_count := gs.websocket_count - 1 },
     { sent := [(OPCODE_CLOSE, data)], textCalls := [], binaryCalls := [],
       closedCalls := if ws.hasClosedHandler then 1 else 0, connCloseCalls := 1 })
  else
    (ws, gs, noEffects)

/-- Embeds `readFrame` (websocket.go lines 236-344): parse one frame, then
dispatch on the opcode exactly as the if/else chain does.  A Continuation
frame matches none of the dispatch branches and falls through to the final
`return nil`. -/
def readFrame (ws : WS) (gs : Global) (input : List Nat) :
    Except String (WS × Global × Effects × List Nat) :=
  match parseFrame ws.is_open input with
  | .error e => .error e
  | .ok f =>
    if f.opcode == OPCODE_CLOSE then
      let r := closeWebSocket ws gs f.payload
      .ok (r.1, r.2.1, r.2.2, f.rest)
    else if f.opcode == OPCODE_PING then
      .ok (ws, gs, { noEffects with sent := [(OPCODE_PONG, f.payload)] }, f.rest)
    else if f.opcode == OPCODE_PONG then
      .ok (ws, gs, noEffects, f.rest)
    else if f.opcode == OPCODE_TEXT then
      .ok (ws, gs,
        { noEffects with textCalls := if ws.hasReceiveTextHandler then [f.payload] else [] },
        f.rest)
    else if f.opcode == OPCODE_BINARY then
      .ok (ws, gs,
        { noEffects with binaryCalls := if ws.hasReceiveBinaryHandler then [f.payload] else [] },
        f.rest)
    else
      .ok (ws, gs, noEffects, f.rest)

/-- One iteration of `readLoop` (websocket.go lines 226-234): on any error
from `readFrame` the connection is closed with status code 1000 and the
loop stops (the boolean result is false); otherwise the loop continues. -/
def readLoopStep (ws : WS) (gs : Global) (input : List Nat) :
    WS × Global × Effects × Bool :=
  match readFrame ws gs input with
  | .error _ =>
    let r := closeWebSocket ws gs (makeStatusCodeBytes ERROR_CODE_NORMAL_CLOSURE)
    (r.1, r.2.1, r.2.2, false)
  | .ok (ws2, gs2, eff, _) => (ws2, gs2, eff, true)

/-! ## Upgrade path (websocket.go lines 72-199) -/

/-- Embeds `validateProtocolHeader` (websocket.go lines 89-94): any
non-empty requested subprotocol is rejected. -/
def validateProtocolHeader (value : String) : Except String String :=
  if value.length > 0 then .error "Unsupported WebSocket protocol"
  else .ok ""

/-- Embeds `validateExtensionsHeader` (websocket.go lines 96-101):
extensions are accepted and ignored. -/
def validateExtensionsHeader (_value : String) : Except String String :=
  .ok ""

/-- Embeds `incrementGlobalWebsocketCount` (websocket.go lines 189-199) in
single-threaded semantics, where the CompareAndSwap of the retry loop
always succeeds on the first attempt: fail if the count is at or above the
maximum, otherwise advance it by one. -/
def incrementGlobalWebsocketCount (count max : Int) : Bool × Int :=
  if count ≥ max then (false, count) else (true, count + 1)

/-- The request descriptor consumed by `makeWebSocket`: method, whether the
HTTP version is at least 1.1, and the header values it reads (Go's
`Header.Get` returns the empty string for an absent header). -/
structure Request where
  method : String
  protoAtLeast11 : Bool
  upgradeHeader : String
  connectionHeader : String
  secFetchMode : String
  secWebSocketVersion : String
  secWebSocketProtocol : String
  secWebSocketExtensions : String
  origin : String
  secWebSocketKey : String
deriving Repr, DecidableEq

inductive MakeResult where
  | ok (ws : WS)
  | err (msg : String)
deriving Repr, DecidableEq

/-- Embeds `makeWebSocket` (websocket.go lines 122-187).  `hijack_ok` says
whether `w.(http.Hijacker).Hijack()` succeeds.  The function returns the
result together with the global state it leaves behind: every validation
failure and the admission failure leave the state untouched; a hijack
failure happens after the admission counter was incremented and leaves that
increment behind. -/
def makeWebSocket (r : Request) (hijack_ok : Bool) (gs : Global) : MakeResult × Global :=
  if r.method != "GET" then (.err "Invalid HTTP method", gs)
  else if r.protoAtLeast11 == false then (.err "HTTP version must be at least 1.1", gs)
  else if r.upgradeHeader != "websocket" then (.err "Invalid Upgrade header", gs)
  else if r.connectionHeader != "Upgrade" then (.err "Invalid Connection header", gs)
  else if r.secFetchMode != "websocket" then (.err "Invalid Sec-Fetch-Mode header", gs)
  else if !(containsSubstr r.secWebSocketVersion "13") then
    (.err "Unsupported WebSocket version", gs)
  else
    match validateProtocolHeader r.secWebSocketProtocol with
    | .error e => (.err e, gs)
    | .ok ws_protocol =>
    match validateExtensionsHeader r.secWebSocketExtensions with
    | .error e => (.err e, gs)
    | .ok ws_extensions =>
    if r.origin == "" then (.err "Missing Origin header", gs)
    else if r.secWebSocketKey == "" then (.err "Missing Sec-WebSocket-Key header", gs)
    else
      let adm := incrementGlobalWebsocketCount gs.websocket_count global_max_websockets
      if !adm.1 then (.err "Maximum number of WebSocket connections reached", gs)
      else
        let gs1 := { gs with websocket_count := adm.2 }
        if !hijack_ok then (.err "hijack failed", gs1)
        else
          let newId := gs1.id_gen + 1
          let ws : WS :=
            { id := newId, ws_protocol := ws_protocol, ws_extensions := ws_extensions,
              client_key := r.secWebSocketKey, is_open := true,
              hasReceiveBinaryHandler := false, hasReceiveTextHandler := false,
              hasClosedHandler := false }
          (.ok ws, { gs1 with id_gen := newId, registry := gs1.registry ++ [newId] })

/-- Embeds `Upgrade` (websocket.go lines 72-87).  `flush_ok` says whether
writing/flushing the handshake response succeeds.  When it fails, `Upgrade`
returns the error without undoing anything `makeWebSocket` did. -/
def Upgrade (r : Request) (hijack_ok flush_ok : Bool) (gs : Global) : MakeResult × Global :=
  match makeWebSocket r hijack_ok gs with
  | (.err e, gs2) => (.err e, gs2)
  | (.ok ws, gs2) =>
    if !flush_ok then (.err "flush failed", gs2)
    else (.ok ws, gs2)

def validRequest : Request :=
  { method := "GET", protoAtLeast11 := true, upgradeHeader := "websocket",
    connectionHeader := "Upgrade", secFetchMode := "websocket",
    secWebSocketVersion := "13", secWebSocketProtocol := "",
    secWebSocketExtensions := "", origin := "http://localhost:8080",
    secWebSocketKey := "dGhlIHNhbXBsZSBub25jZQ==" }

def gs0 : Global :=
  { websocket_count := 0, registry := [], id_gen := 0 }

/-- A fully populated open connection used for concrete witnesses. -/
def wsOpen : WS :=
  { id := 1, ws_protocol := "", ws_extensions := "",
    client_key := "dGhlIHNhbXBsZSBub25jZQ==", is_open := true,
    hasReceiveBinaryHandler := true, hasReceiveTextHandler := true,
    hasClosedHandler := true }

/-- Global state with the single connection `wsOpen` registered. -/
def gs1 : Global :=
  { websocket_count := 1, registry := [1], id_gen := 1 }

/-! ## Helper lemmas -/

theorem maskDataAux_involutive (key : List Nat) (i : Nat) (data : List Nat) :
    maskDataAux key i (maskDataAux key i data) = data := by
  induction data generalizing i with
  | nil => rfl
  | cons b rest ih => simp [maskDataAux, Nat.xor_cancel_right, ih]

theorem maskDataAux_length (key : List Nat) (i : Nat) (data : List Nat) :
    (maskDataAux key i data).length = data.length := by
  induction data generalizing i with
  | nil => rfl
  | cons b rest ih => simp [maskDataAux, ih]

theorem maskData_length (key data : List Nat) :
    (maskData key data).length = data.length :=
  maskDataAux_length key 0 data

theorem or_two_pow_mul_add (a b k : Nat) (hb : b < 2 ^ k) :
    2 ^ k * a ||| b = 2 ^ k * a + b := by
  apply Nat.eq_of_testBit_eq
  intro j
  rw [Nat.testBit_or, Nat.testBit_mul_pow_two_add a hb j, Nat.testBit_mul_pow_two]
  by_cases hj : j < k
  · simp [hj, Nat.not_le_of_lt hj]
  · have hbj : b.testBit j = false :=
      Nat.testBit_lt_two_pow
        (Nat.lt_of_lt_of_le hb (Nat.pow_le_pow_right (by norm_num) (Nat.le_of_not_lt hj)))
    simp [hj, hbj, Nat.le_of_not_lt hj]

theorem and_127_eq (n : Nat) (h : n < 128) : n &&& 127 = n := by
  have h1 := Nat.and_pow_two_sub_one_eq_mod n 7
  norm_num at h1
  rw [h1]
  omega

theorem and_128_ne (n : Nat) (h : n < 128) : (n &&& 128 == 128) = false := by
  have h1 : n &&& 128 ≤ n := Nat.and_le_left
  rw [beq_eq_false_iff_ne]
  omega

theorem add_128_and_127 (n : Nat) (h : n < 128) : (128 + n) &&& 127 = n := by
  have h1 := Nat.and_pow_two_sub_one_eq_mod (128 + n) 7
  norm_num at h1
  rw [h1]
  omega

theorem add_128_and_128 (n : Nat) (h : n < 128) : ((128 + n) &&& 128 == 128) = true := by
  have ht : (128 + n).testBit 7 = true := by
    have h2 := Nat.testBit_mul_pow_two_add 1 (show n < 2 ^ 7 by omega) 7
    norm_num at h2
    exact h2
  have h3 := Nat.and_two_pow (128 + n) 7
  rw [ht] at h3
  norm_num at h3
  simp [h3]

/-- Parsing an unmasked frame with a valid opcode and an inline (7-bit)
payload length recovers the opcode and payload and consumes exactly the
frame. -/
theorem parseFrame_inline (opcode : Nat) (payload rest : List Nat)
    (hvalid : opcode = 0x0 ∨ opcode = 0x1 ∨ opcode = 0x2 ∨ opcode = 0x8 ∨
              opcode = 0x9 ∨ opcode = 0xA)
    (hlen : payload.length ≤ 125) :
    parseFrame true ((0x80 ||| opcode) :: payload.length :: (payload ++ rest)) =
      .ok ⟨opcode, false, payload, rest⟩ := by
  have hfin : ((0x80 ||| opcode) &&& 0x80 == 0x80) = true := by
    rcases hvalid with rfl | rfl | rfl | rfl | rfl | rfl <;> decide
  have hrsv1 : ((0x80 ||| opcode) &&& 0x40 == 0x40) = false := by
    rcases hvalid with rfl | rfl | rfl | rfl | rfl | rfl <;> decide
  have hrsv2 : ((0x80 ||| opcode) &&& 0x20 == 0x20) = false := by
    rcases hvalid with rfl | rfl | rfl | rfl | rfl | rfl <;> decide
  have hrsv3 : ((0x80 ||| opcode) &&& 0x10 == 0x10) = false := by
    rcases hvalid with rfl | rfl | rfl | rfl | rfl | rfl <;> decide
  have hopc : (0x80 ||| opcode) &&& 0x0F = opcode := by
    rcases hvalid with rfl | rfl | rfl | rfl | rfl | rfl <;> decide
  have hvalidop : (opcode == OPCODE_CONTINUATION || opcode == OPCODE_TEXT ||
      opcode == OPCODE_BINARY || opcode == OPCODE_CLOSE || opcode == OPCODE_PING ||
      opcode == OPCODE_PONG) = true := by
    rcases hvalid with rfl | rfl | rfl | rfl | rfl | rfl <;> decide
  have hmask : (payload.length &&& 0x80 == 0x80) = false := and_128_ne _ (by omega)
  have h127 : payload.length &&& 0x7F = payload.length := and_127_eq _ (by omega)
  have hne126 : (payload.length == 126) = false := by
    rw [beq_eq_false_iff_ne]; omega
  have hne127 : (payload.length == 127) = false := by
    rw [beq_eq_false_iff_ne]; omega
  have hsz : ¬ ((payload.length : Nat) : Int) > global_frame_max_size := by
    rw [global_frame_max_size]; omega
  have hneg : ¬ ((payload.length : Nat) : Int) < 0 := by omega
  simp [parseFrame, readExact, hfin, hrsv1, hrsv2, hrsv3, hopc, hvalidop,
    hmask, h127, hne126, hne127, hsz, hneg, List.take_left, List.drop_left]

/-- Parsing a masked frame with a valid opcode, an inline payload length
and a 4-byte mask key unmasks the payload back to the original bytes. -/
theorem parseFrame_inline_masked (opcode : Nat) (payload rest key : List Nat)
    (hvalid : opcode = 0x0 ∨ opcode = 0x1 ∨ opcode = 0x2 ∨ opcode = 0x8 ∨
              opcode = 0x9 ∨ opcode = 0xA)
    (hlen : payload.length ≤ 125) (hkey : key.length = 4) :
    parseFrame true
        ((0x80 ||| opcode) :: (0x80 ||| payload.length) ::
          (key ++ (maskData key payload ++ rest))) =
      .ok ⟨opcode, true, payload, rest⟩ := by
  have hfin : ((0x80 ||| opcode) &&& 0x80 == 0x80) = true := by
    rcases hvalid with rfl | rfl | rfl | rfl | rfl | rfl <;> decide
  have hrsv1 : ((0x80 ||| opcode) &&& 0x40 == 0x40) = false := by
    rcases hvalid with rfl | rfl | rfl | rfl | rfl | rfl <;> decide
  have hrsv2 : ((0x80 ||| opcode) &&& 0x20 == 0x20) = false := by
    rcases hvalid with rfl | rfl | rfl | rfl | rfl | rfl <;> decide
  have hrsv3 : ((0x80 ||| opcode) &&& 0x10 == 0x10) = false := by
    rcases hvalid with rfl | rfl | rfl | rfl | rfl | rfl <;> decide
  have hopc : (0x80 ||| opcode) &&& 0x0F = opcode := by
    rcases hvalid with rfl | rfl | rfl | rfl | rfl | rfl <;> decide
  have hvalidop : (opcode == OPCODE_CONTINUATION || opcode == OPCODE_TEXT ||
      opcode == OPCODE_BINARY || opcode == OPCODE_CLOSE || opcode == OPCODE_PING ||
      opcode == OPCODE_PONG) = true := by
    rcases hvalid with rfl | rfl | rfl | rfl | rfl | rfl <;> decide
  have hor : (0x80 ||| payload.length) = 128 + payload.length := by
    have h0 := or_two_pow_mul_add 1 payload.length 7 (by omega)
    norm_num at h0
    exact h0
  have hmask : ((128 + payload.length) &&& 0x80 == 0x80) = true :=
    add_128_and_128 _ (by omega)
  have h127 : (128 + payload.length) &&& 0x7F = payload.length :=
    add_128_and_127 _ (by omega)
  have hne126 : (payload.length == 126) = false := by
    rw [beq_eq_false_iff_ne]; omega
  have hne127 : (payload.length == 127) = false := by
    rw [beq_eq_false_iff_ne]; omega
  have hsz : ¬ ((payload.length : Nat) : Int) > global_frame_max_size := by
    rw [global_frame_max_size]; omega
  have hneg : ¬ ((payload.length : Nat) : Int) < 0 := by omega
  have htake : (maskDataAux key 0 payload ++ rest).take payload.length =
      maskDataAux key 0 payload :=
    List.take_left' (maskDataAux_length key 0 payload)
  have hdrop : (maskDataAux key 0 payload ++ rest).drop payload.length = rest :=
    List.drop_left' (maskDataAux_length key 0 payload)
  simp [parseFrame, readExact, hfin, hrsv1, hrsv2, hrsv3, hopc, hvalidop,
    hor, hmask, h127, hne126, hne127, hsz, hneg, hkey,
    List.take_left' hkey, List.drop_left' hkey, htake, hdrop,
    maskDataAux_involutive, maskDataAux_length, maskData]

/-- Parsing a frame whose 16-bit extended length announces exactly 126
payload bytes. -/
theorem parseFrame_len126 (opcode : Nat) (payload rest : List Nat)
    (hvalid : opcode = 0x0 ∨ opcode = 0x1 ∨ opcode = 0x2 ∨ opcode = 0x8 ∨
              opcode = 0x9 ∨ opcode = 0xA)
    (h : payload.length = 126) :
    parseFrame true ((0x80 ||| opcode) :: 126 :: (0 :: 126 :: (payload ++ rest))) =
      .ok ⟨opcode, false, payload, rest⟩ := by
  have hfin : ((0x80 ||| opcode) &&& 0x80 == 0x80) = true := by
    rcases hvalid with rfl | rfl | rfl | rfl | rfl | rfl <;> decide
  have hrsv1 : ((0x80 ||| opcode) &&& 0x40 == 0x40) = false := by
    rcases hvalid with rfl | rfl | rfl | rfl | rfl | rfl <;> decide
  have hrsv2 : ((0x80 ||| opcode) &&& 0x20 == 0x20) = false := by
    rcases hvalid with rfl | rfl | rfl | rfl | rfl | rfl <;> decide
  have hrsv3 : ((0x80 ||| opcode) &&& 0x10 == 0x10) = false := by
    rcases hvalid with rfl | rfl | rfl | rfl | rfl | rfl <;> decide
  have hopc : (0x80 ||| opcode) &&& 0x0F = opcode := by
    rcases hvalid with rfl | rfl | rfl | rfl | rfl | rfl <;> decide
  have hvalidop : (opcode == OPCODE_CONTINUATION || opcode == OPCODE_TEXT ||
      opcode == OPCODE_BINARY || opcode == OPCODE_CLOSE || opcode == OPCODE_PING ||
      opcode == OPCODE_PONG) = true := by
    rcases hvalid with rfl | rfl | rfl | rfl | rfl | rfl <;> decide
  have hmask : ((126 : Nat) &&& 0x80 == 0x80) = false := by decide
  have h7f : (126 : Nat) &&& 0x7F = 126 := by decide
  have hlen2 : 2 ≤ (0 :: 126 :: (payload ++ rest)).length := by simp
  have ht2 : (0 :: 126 :: (payload ++ rest)).take 2 = [0, 126] := rfl
  have hd2 : (0 :: 126 :: (payload ++ rest)).drop 2 = payload ++ rest := rfl
  have hg0 : ([0, 126] : List Nat).getD 0 0 = 0 := rfl
  have hg1 : ([0, 126] : List Nat).getD 1 0 = 126 := rfl
  have hge : 126 ≤ payload.length + rest.length := by omega
  have htake : (payload ++ rest).take 126 = payload := by
    rw [← h]; exact List.take_left payload rest
  have hdrop : (payload ++ rest).drop 126 = rest := by
    rw [← h]; exact List.drop_left payload rest
  simp [parseFrame, readExact, hfin, hrsv1, hrsv2, hrsv3, hopc, hvalidop,
    hmask, h7f, hlen2, ht2, hd2, hg0, hg1, hge, htake, hdrop, global_frame_max_size]

/-- Parsing a frame whose 16-bit extended length announces exactly 65535
payload bytes. -/
theorem parseFrame_len65535 (opcode : Nat) (payload rest : List Nat)
    (hvalid : opcode = 0x0 ∨ opcode = 0x1 ∨ opcode = 0x2 ∨ opcode = 0x8 ∨
              opcode = 0x9 ∨ opcode = 0xA)
    (h : payload.length = 65535) :
    parseFrame true ((0x80 ||| opcode) :: 126 :: (255 :: 255 :: (payload ++ rest))) =
      .ok ⟨opcode, false, payload, rest⟩ := by
  have hfin : ((0x80 ||| opcode) &&& 0x80 == 0x80) = true := by
    rcases hvalid with rfl | rfl | rfl | rfl | rfl | rfl <;> decide
  have hrsv1 : ((0x80 ||| opcode) &&& 0x40 == 0x40) = false := by
    rcases hvalid with rfl | rfl | rfl | rfl | rfl | rfl <;> decide
  have hrsv2 : ((0x80 ||| opcode) &&& 0x20 == 0x20) = false := by
    rcases hvalid with rfl | rfl | rfl | rfl | rfl | rfl <;> decide
  have hrsv3 : ((0x80 ||| opcode) &&& 0x10 == 0x10) = false := by
    rcases hvalid with rfl | rfl | rfl | rfl | rfl | rfl <;> decide
  have hopc : (0x80 ||| opcode) &&& 0x0F = opcode := by
    rcases hvalid with rfl | rfl | rfl | rfl | rfl | rfl <;> decide
  have hvalidop : (opcode == OPCODE_CONTINUATION || opcode == OPCODE_TEXT ||
      opcode == OPCODE_BINARY || opcode == OPCODE_CLOSE || opcode == OPCODE_PING ||
      opcode == OPCODE_PONG) = true := by
    rcases hvalid with rfl | rfl | rfl | rfl | rfl | rfl <;> decide
  have hmask : ((126 : Nat) &&& 0x80 == 0x80) = false := by decide
  have h7f : (126 : Nat) &&& 0x7F = 126 := by decide
  have hlen2 : 2 ≤ (255 :: 255 :: (payload ++ rest)).length := by simp
  have ht2 : (255 :: 255 :: (payload ++ rest)).take 2 = [255, 255] := rfl
  have hd2 : (255 :: 255 :: (payload ++ rest)).drop 2 = payload ++ rest := rfl
  have hg0 : ([255, 255] : List Nat).getD 0 0 = 255 := rfl
  have hg1 : ([255, 255] : List Nat).getD 1 0 = 255 := rfl
  have hge : 65535 ≤ payload.length + rest.length := by omega
  have htake : (payload ++ rest).take 65535 = payload := by
    rw [← h]; exact List.take_left payload rest
  have hdrop : (payload ++ rest).drop 65535 = rest := by
    rw [← h]; exact List.drop_left payload rest
  simp [parseFrame, readExact, hfin, hrsv1, hrsv2, hrsv3, hopc, hvalidop,
    hmask, h7f, hlen2, ht2, hd2, hg0, hg1, hge, htake, hdrop, global_frame_max_size]

/-- Parsing a frame whose 64-bit extended length announces exactly 65536
payload bytes. -/
theorem parseFrame_len65536 (opcode : Nat) (payload rest : List Nat)
    (hvalid : opcode = 0x0 ∨ opcode = 0x1 ∨ opcode = 0x2 ∨ opcode = 0x8 ∨
              opcode = 0x9 ∨ opcode = 0xA)
    (h : payload.length = 65536) :
    parseFrame true ((0x80 ||| opcode) :: 127 ::
        (0 :: 0 :: 0 :: 0 :: 0 :: 1 :: 0 :: 0 :: (payload ++ rest))) =
      .ok ⟨opcode, false, payload, rest⟩ := by
  have hfin : ((0x80 ||| opcode) &&& 0x80 == 0x80) = true := by
    rcases hvalid with rfl | rfl | rfl | rfl | rfl | rfl <;> decide
  have hrsv1 : ((0x80 ||| opcode) &&& 0x40 == 0x40) = false := by
    rcases hvalid with rfl | rfl | rfl | rfl | rfl | rfl <;> decide
  have hrsv2 : ((0x80 ||| opcode) &&& 0x20 == 0x20) = false := by
    rcases hvalid with rfl | rfl | rfl | rfl | rfl | rfl <;> decide
  have hrsv3 : ((0x80 ||| opcode) &&& 0x10 == 0x10) = false := by
    rcases hvalid with rfl | rfl | rfl | rfl | rfl | rfl <;> decide
  have hopc : (0x80 ||| opcode) &&& 0x0F = opcode := by
    rcases hvalid with rfl | rfl | rfl | rfl | rfl | rfl <;> decide
  have hvalidop : (opcode == OPCODE_CONTINUATION || opcode == OPCODE_TEXT ||
      opcode == OPCODE_BINARY || opcode == OPCODE_CLOSE || opcode == OPCODE_PING ||
      opcode == OPCODE_PONG) = true := by
    rcases hvalid with rfl | rfl | rfl | rfl | rfl | rfl <;> decide
  have hmask : ((127 : Nat) &&& 0x80 == 0x80) = false := by decide
  have h7f : (127 : Nat) &&& 0x7F = 127 := by decide
  have hlen8 : 8 ≤ (0 :: 0 :: 0 :: 0 :: 0 :: 1 :: 0 :: 0 :: (payload ++ rest)).length := by simp
  have ht8 : (0 :: 0 :: 0 :: 0 :: 0 :: 1 :: 0 :: 0 :: (payload ++ rest)).take 8 =
      [0, 0, 0, 0, 0, 1, 0, 0] := rfl
  have hd8 : (0 :: 0 :: 0 :: 0 :: 0 :: 1 :: 0 :: 0 :: (payload ++ rest)).drop 8 =
      payload ++ rest := rfl
  have hg0 : ([0, 0, 0, 0, 0, 1, 0, 0] : List Nat).getD 0 0 = 0 := rfl
  have hg1 : ([0, 0, 0, 0, 0, 1, 0, 0] : List Nat).getD 1 0 = 0 := rfl
  have hg2 : ([0, 0, 0, 0, 0, 1, 0, 0] : List Nat).getD 2 0 = 0 := rfl
  have hg3 : ([0, 0, 0, 0, 0, 1, 0, 0] : List Nat).getD 3 0 = 0 := rfl
  have hg4 : ([0, 0, 0, 0, 0, 1, 0, 0] : List Nat).getD 4 0 = 0 := rfl
  have hg5 : ([0, 0, 0, 0, 0, 1, 0, 0] : List Nat).getD 5 0 = 1 := rfl
  have hg6 : ([0, 0, 0, 0, 0, 1, 0, 0] : List Nat).getD 6 0 = 0 := rfl
  have hg7 : ([0, 0, 0, 0, 0, 1, 0, 0] : List Nat).getD 7 0 = 0 := rfl
  have hti : toInt64 65536 = 65536 := by decide
  have hge : 65536 ≤ payload.length + rest.length := by omega
  have htake : (payload ++ rest).take 65536 = payload := by
    rw [← h]; exact List.take_left payload rest
  have hdrop : (payload ++ rest).drop 65536 = rest := by
    rw [← h]; exact List.drop_left payload rest
  simp [parseFrame, readExact, hfin, hrsv1, hrsv2, hrsv3, hopc, hvalidop,
    hmask, h7f, hlen8, ht8, hd8, hg0, hg1, hg2, hg3, hg4, hg5, hg6, hg7, hti,
    hge, htake, hdrop, global_frame_max_size]

/-! ## Theorems for the claims -/

/-- C9: masking is involutive — for every payload and every 4-byte mask
key, applying the XOR masking operation twice with the same key returns the
original payload (any payload length, in particular lengths that are not a
multiple of 4). -/
theorem mask_involutive (key data : List Nat) (hkey : key.length = 4) :
    maskData key (maskData key data) = data :=
  maskDataAux_involutive key 0 data

theorem mask_involutive_witness :
    ([1, 2, 3, 4] : List Nat).length = 4 ∧
      maskData [1, 2, 3, 4] (maskData [1, 2, 3, 4] [9, 8, 7, 6, 5]) = [9, 8, 7, 6, 5] :=
  ⟨by decide, mask_involutive [1, 2, 3, 4] [9, 8, 7, 6, 5] (by decide)⟩

/-- C5: triggering close twice on an open connection performs the teardown
exactly once — the first call removes the connection from the registry,
decrements the admission counter, invokes the Closed handler once and
closes the transport once; the second call is a no-op (state unchanged, no
effects). -/
theorem close_idempotent (ws : WS) (gs : Global) (d1 d2 : List Nat)
    (hopen : ws.is_open = true) (hh : ws.hasClosedHandler = true) :
    (closeWebSocket ws gs d1).2.1.registry = gs.registry.erase ws.id ∧
    (closeWebSocket ws gs d1).2.1.websocket_count = gs.websocket_count - 1 ∧
    (closeWebSocket ws gs d1).2.2.closedCalls = 1 ∧
    (closeWebSocket ws gs d1).2.2.connCloseCalls = 1 ∧
    closeWebSocket (closeWebSocket ws gs d1).1 (closeWebSocket ws gs d1).2.1 d2 =
      ((closeWebSocket ws gs d1).1, (closeWebSocket ws gs d1).2.1, noEffects) := by
  simp [closeWebSocket, hopen, hh]

theorem close_idempotent_witness :
    wsOpen.is_open = true ∧
      (closeWebSocket wsOpen gs1 []).2.1.registry = gs1.registry.erase wsOpen.id ∧
      (closeWebSocket wsOpen gs1 []).2.1.websocket_count = gs1.websocket_count - 1 ∧
      (closeWebSocket wsOpen gs1 []).2.2.closedCalls = 1 ∧
      (closeWebSocket wsOpen gs1 []).2.2.connCloseCalls = 1 ∧
      closeWebSocket (closeWebSocket wsOpen gs1 []).1 (closeWebSocket wsOpen gs1 []).2.1 [3] =
        ((closeWebSocket wsOpen gs1 []).1, (closeWebSocket wsOpen gs1 []).2.1, noEffects) :=
  ⟨rfl, close_idempotent wsOpen gs1 [] [3] rfl rfl⟩

/-- C6: the admission counter never exceeds the configured maximum (default
1000) — the increment fails leaving the count unchanged when the count is
at or above the maximum and otherwise advances it by one, so with maximum N
an admission attempt while N connections are open fails, and succeeds again
once the count has dropped to N - 1. -/
theorem admission_bounded (N : Int) :
    (∀ c : Int, c < N → incrementGlobalWebsocketCount c N = (true, c + 1)) ∧
    (∀ c : Int, N ≤ c → incrementGlobalWebsocketCount c N = (false, c)) ∧
    (∀ c : Int, c ≤ N → (incrementGlobalWebsocketCount c N).2 ≤ N) ∧
    incrementGlobalWebsocketCount N N = (false, N) ∧
    incrementGlobalWebsocketCount (N - 1) N = (true, N) ∧
    global_max_websockets = 1000 := by
  refine ⟨?_, ?_, ?_, ?_, ?_, rfl⟩
  · intro c hc
    rw [incrementGlobalWebsocketCount, if_neg (by omega)]
  · intro c hc
    rw [incrementGlobalWebsocketCount, if_pos (by omega)]
  · intro c hc
    by_cases h : c ≥ N
    · rw [incrementGlobalWebsocketCount, if_pos h]
      exact hc
    · rw [incrementGlobalWebsocketCount, if_neg h]
      simpa using by omega
  · rw [incrementGlobalWebsocketCount, if_pos (by omega)]
  · rw [incrementGlobalWebsocketCount, if_neg (by omega)]
    simp

theorem admission_bounded_witness :
    incrementGlobalWebsocketCount 1 2 = (true, 2) ∧
      incrementGlobalWebsocketCount 2 2 = (false, 2) ∧
      incrementGlobalWebsocketCount 999 1000 = (true, 1000) :=
  ⟨by simpa using (admission_bounded 2).1 1 (by omega),
   (admission_bounded 2).2.2.2.1,
   by simpa using (admission_bounded 1000).2.2.2.2.1⟩

/-- C4: the claim says a failed upgrade never leaves a connection partially
registered (no id consumed, registry untouched) apart from the documented
admission-counter leak on hijack failure.  The code violates this on the
handshake-response path: when the response write/flush fails after
`makeWebSocket` succeeded, `Upgrade` returns an error yet the connection
stays fully registered — the id is consumed, the registry keeps the entry
and the counter stays incremented.  This theorem evaluates the model at
that failing input. -/
theorem upgrade_flush_failure_leaks_state :
    (Upgrade validRequest true false gs0).1 = MakeResult.err "flush failed" ∧
    (Upgrade validRequest true false gs0).2 =
      { websocket_count := 1, registry := [1], id_gen := 1 } := by
  constructor
  · rfl
  · rfl

/-- C2: for every payload of length in {0, 1, 125, 126, 65535, 65536} and
opcode in {Text, Binary}, decoding the bytes produced by encoding the
(unmasked) frame recovers the opcode and payload exactly, and the encoded
header uses the 7-bit inline length for lengths up to 125, the 16-bit
extended tier up to 65535, and the 64-bit extended tier above that. -/
theorem frame_roundtrip (opcode : Nat) (payload : List Nat)
    (hop : opcode = OPCODE_TEXT ∨ opcode = OPCODE_BINARY)
    (hlen : payload.length = 0 ∨ payload.length = 1 ∨ payload.length = 125 ∨
            payload.length = 126 ∨ payload.length = 65535 ∨ payload.length = 65536) :
    ∃ enc, sendFrame opcode [] payload = .ok enc ∧
      parseFrame true enc = .ok ⟨opcode, false, payload, []⟩ ∧
      ((payload.length ≤ 125 ∧ enc.length = 2 + payload.length ∧
          enc.getD 1 0 &&& 0x7F = payload.length) ∨
       (126 ≤ payload.length ∧ payload.length ≤ 65535 ∧
          enc.length = 4 + payload.length ∧ enc.getD 1 0 &&& 0x7F = 126) ∨
       (65536 ≤ payload.length ∧ enc.length = 10 + payload.length ∧
          enc.getD 1 0 &&& 0x7F = 127)) := by
  have hvalid : opcode = 0x0 ∨ opcode = 0x1 ∨ opcode = 0x2 ∨ opcode = 0x8 ∨
      opcode = 0x9 ∨ opcode = 0xA := by
    rcases hop with rfl | rfl
    · right; left; rfl
    · right; right; left; rfl
  have hns : ¬ (opcode > 0x0F) := by
    rcases hvalid with rfl | rfl | rfl | rfl | rfl | rfl <;> decide
  rcases hlen with h | h | h | h | h | h
  -- inline 7-bit tier: lengths 0, 1, 125
  case inl | inr.inl | inr.inr.inl =>
    have hle : payload.length ≤ 125 := by omega
    refine ⟨(0x80 ||| opcode) :: payload.length :: payload, ?_, ?_, ?_⟩
    · simp [sendFrame, hns, hle]
    · have hp := parseFrame_inline opcode payload [] hvalid hle
      simpa using hp
    · left
      refine ⟨hle, by simp only [List.length_cons]; omega, ?_⟩
      have hg : ((0x80 ||| opcode) :: payload.length :: payload).getD 1 0 =
          payload.length := rfl
      rw [hg]
      exact and_127_eq _ (by omega)
  -- 16-bit tier: length 126
  case inr.inr.inr.inl =>
    refine ⟨(0x80 ||| opcode) :: 126 :: (0 :: 126 :: payload), ?_, ?_, ?_⟩
    · have e1 : (126 : Nat) &&& 0xFF = 126 := by decide
      simp [sendFrame, hns, h, e1]
    · have hp := parseFrame_len126 opcode payload [] hvalid h
      simpa using hp
    · right; left
      refine ⟨by omega, by omega, by simp only [List.length_cons]; omega, ?_⟩
      have hg : ((0x80 ||| opcode) :: 126 :: (0 :: 126 :: payload)).getD 1 0 = 126 := rfl
      rw [hg]
      decide
  -- 16-bit tier: length 65535
  case inr.inr.inr.inr.inl =>
    refine ⟨(0x80 ||| opcode) :: 126 :: (255 :: 255 :: payload), ?_, ?_, ?_⟩
    · have e1 : (255 : Nat) &&& 0xFF = 255 := by decide
      have e2 : (65535 : Nat) &&& 0xFF = 255 := by decide
      simp [sendFrame, hns, h, e1, e2]
    · have hp := parseFrame_len65535 opcode payload [] hvalid h
      simpa using hp
    · right; left
      refine ⟨by omega, by omega, by simp only [List.length_cons]; omega, ?_⟩
      have hg : ((0x80 ||| opcode) :: 126 :: (255 :: 255 :: payload)).getD 1 0 = 126 := rfl
      rw [hg]
      decide
  -- 64-bit tier: length 65536
  case inr.inr.inr.inr.inr =>
    refine ⟨(0x80 ||| opcode) :: 127 ::
      (0 :: 0 :: 0 :: 0 :: 0 :: 1 :: 0 :: 0 :: payload), ?_, ?_, ?_⟩
    · have e1 : (1 : Nat) &&& 0xFF = 1 := by decide
      have e2 : (256 : Nat) &&& 0xFF = 0 := by decide
      have e3 : (65536 : Nat) &&& 0xFF = 0 := by decide
      simp [sendFrame, hns, h, e1, e2, e3]
    · have hp := parseFrame_len65536 opcode payload [] hvalid h
      simpa using hp
    · right; right
      refine ⟨by omega, by simp only [List.length_cons]; omega, ?_⟩
      have hg : ((0x80 ||| opcode) :: 127 ::
          (0 :: 0 :: 0 :: 0 :: 0 :: 1 :: 0 :: 0 :: payload)).getD 1 0 = 127 := rfl
      rw [hg]
      decide

theorem frame_roundtrip_witness :
    ∃ enc, sendFrame OPCODE_TEXT [] [42] = .ok enc ∧
      parseFrame true enc = .ok ⟨OPCODE_TEXT, false, [42], []⟩ ∧
      ((([42] : List Nat).length ≤ 125 ∧ enc.length = 2 + ([42] : List Nat).length ∧
          enc.getD 1 0 &&& 0x7F = ([42] : List Nat).length) ∨
       (126 ≤ ([42] : List Nat).length ∧ ([42] : List Nat).length ≤ 65535 ∧
          enc.length = 4 + ([42] : List Nat).length ∧ enc.getD 1 0 &&& 0x7F = 126) ∨
       (65536 ≤ ([42] : List Nat).length ∧ enc.length = 10 + ([42] : List Nat).length ∧
          enc.getD 1 0 &&& 0x7F = 127)) :=
  frame_roundtrip OPCODE_TEXT [42] (Or.inl rfl) (by right; left; rfl)

/-- C3 (counterexample): the claim says the frame-read operation never
returns success for a Continuation frame, but a Continuation frame with
FIN = 1 (first byte 0x80) passes the opcode allow-list at websocket.go
line 261, matches no dispatch branch, and `readFrame` returns success. -/
theorem continuation_accepted_counterexample :
    isErr (readFrame wsOpen gs1 [0x80, 0x00]) = false ∧
      readFrame wsOpen gs1 [0x80, 0x00] = .ok (wsOpen, gs1, noEffects, []) := by
  constructor
  · rfl
  · rfl

/-- C3 (amended): a Continuation frame with FIN = 0 is rejected like every
non-final frame, while a Continuation frame with FIN = 1 is decoded
successfully and silently ignored — no handler is invoked, nothing is
sent, and the connection state is unchanged. -/
theorem continuation_frame_handling :
    (∀ (ws : WS) (gs : Global) (b1 : Nat) (rest : List Nat), b1 &&& 0x80 ≠ 0x80 →
        isErr (readFrame ws gs (b1 :: rest)) = true) ∧
    (∀ (ws : WS) (gs : Global) (payload rest : List Nat), ws.is_open = true →
        payload.length ≤ 125 →
        readFrame ws gs (0x80 :: payload.length :: (payload ++ rest)) =
          .ok (ws, gs, noEffects, rest)) := by
  constructor
  · intro ws gs b1 rest hfin
    cases hopen : ws.is_open
    · simp [readFrame, parseFrame, hopen, isErr]
    · have hb : (b1 &&& 0x80 == 0x80) = false := by
        rw [beq_eq_false_iff_ne]; exact hfin
      simp [readFrame, parseFrame, hopen, hb, isErr]
  · intro ws gs payload rest hopen hlen
    have hp := parseFrame_inline 0x0 payload rest (by tauto) hlen
    simp at hp
    simp [readFrame, hopen, hp, OPCODE_CLOSE, OPCODE_PING, OPCODE_PONG,
      OPCODE_TEXT, OPCODE_BINARY]

theorem continuation_frame_handling_witness :
    isErr (readFrame wsOpen gs1 [0x00, 0x00]) = true ∧
      readFrame wsOpen gs1 (0x80 :: ([5] : List Nat).length :: ([5] ++ [])) =
        .ok (wsOpen, gs1, noEffects, []) :=
  ⟨continuation_frame_handling.1 wsOpen gs1 0x00 [0x00] (by decide),
   continuation_frame_handling.2 wsOpen gs1 [5] [] rfl (by decide)⟩

/-- C8: a Ping frame received on an open connection — unmasked or masked
with any 4-byte key — produces exactly one Pong send whose payload is
byte-for-byte the Ping payload, and invokes no application handler and
changes no state. -/
theorem ping_auto_pong (ws : WS) (gs : Global) (payload rest key : List Nat)
    (hopen : ws.is_open = true) (hlen : payload.length ≤ 125) (hkey : key.length = 4) :
    readFrame ws gs (0x89 :: payload.length :: (payload ++ rest)) =
      .ok (ws, gs, { noEffects with sent := [(OPCODE_PONG, payload)] }, rest) ∧
    readFrame ws gs (0x89 :: (0x80 ||| payload.length) ::
        (key ++ (maskData key payload ++ rest))) =
      .ok (ws, gs, { noEffects with sent := [(OPCODE_PONG, payload)] }, rest) := by
  constructor
  · have hp := parseFrame_inline 0x9 payload rest (by tauto) hlen
    simp at hp
    simp [readFrame, hopen, hp, OPCODE_CLOSE, OPCODE_PING, OPCODE_PONG,
      OPCODE_TEXT, OPCODE_BINARY]
  · have hp := parseFrame_inline_masked 0x9 payload rest key (by tauto) hlen hkey
    simp at hp
    simp [readFrame, hopen, hp, OPCODE_CLOSE, OPCODE_PING, OPCODE_PONG,
      OPCODE_TEXT, OPCODE_BINARY]

theorem ping_auto_pong_witness :
    readFrame wsOpen gs1
        (0x89 :: ([112, 105, 110, 103, 45, 100, 97, 116, 97] : List Nat).length ::
          ([112, 105, 110, 103, 45, 100, 97, 116, 97] ++ [])) =
      .ok (wsOpen, gs1,
        { noEffects with sent := [(OPCODE_PONG, [112, 105, 110, 103, 45, 100, 97, 116, 97])] },
        []) :=
  (ping_auto_pong wsOpen gs1 [112, 105, 110, 103, 45, 100, 97, 116, 97] [] [1, 2, 3, 4]
    rfl (by decide) (by decide)).1

/-- C10: a Text frame is delivered to the registered text handler with the
unmasked payload bytes passed through verbatim — quantified over arbitrary
byte lists, so no UTF-8 validation can reject or alter a payload — for
unmasked frames and for frames masked with any 4-byte key. -/
theorem text_payload_verbatim (ws : WS) (gs : Global) (payload rest key : List Nat)
    (hopen : ws.is_open = true) (hh : ws.hasReceiveTextHandler = true)
    (hlen : payload.length ≤ 125) (hkey : key.length = 4) :
    readFrame ws gs (0x81 :: payload.length :: (payload ++ rest)) =
      .ok (ws, gs, { noEffects with textCalls := [payload] }, rest) ∧
    readFrame ws gs (0x81 :: (0x80 ||| payload.length) ::
        (key ++ (maskData key payload ++ rest))) =
      .ok (ws, gs, { noEffects with textCalls := [payload] }, rest) := by
  constructor
  · have hp := parseFrame_inline 0x1 payload rest (by tauto) hlen
    simp at hp
    simp [readFrame, hopen, hh, hp, OPCODE_CLOSE, OPCODE_PING, OPCODE_PONG,
      OPCODE_TEXT, OPCODE_BINARY]
  · have hp := parseFrame_inline_masked 0x1 payload rest key (by tauto) hlen hkey
    simp at hp
    simp [readFrame, hopen, hh, hp, OPCODE_CLOSE, OPCODE_PING, OPCODE_PONG,
      OPCODE_TEXT, OPCODE_BINARY]

theorem text_payload_verbatim_witness :
    readFrame wsOpen gs1 (0x81 :: ([0xFF, 0xFE, 0x80] : List Nat).length ::
        ([0xFF, 0xFE, 0x80] ++ [])) =
      .ok (wsOpen, gs1, { noEffects with textCalls := [[0xFF, 0xFE, 0x80]] }, []) :=
  (text_payload_verbatim wsOpen gs1 [0xFF, 0xFE, 0x80] [] [1, 2, 3, 4]
    rfl rfl (by decide) (by decide)).1

/-- C7: frame decoding deterministically rejects malformed frames on an
open connection — FIN = 0, any RSV bit set, a reserved opcode, or a
64-bit-tier payload length above the configured maximum all make
`readFrame` fail, and on any failed read the loop closes the connection
without invoking a message handler. -/
theorem malformed_frames_rejected (ws : WS) (gs : Global) (hopen : ws.is_open = true) :
    (∀ b1 rest, b1 &&& 0x80 ≠ 0x80 → isErr (readFrame ws gs (b1 :: rest)) = true) ∧
    (∀ b1 rest, (b1 &&& 0x40 = 0x40 ∨ b1 &&& 0x20 = 0x20 ∨ b1 &&& 0x10 = 0x10) →
        isErr (readFrame ws gs (b1 :: rest)) = true) ∧
    (∀ op rest, op ∈ ([0x3, 0x4, 0x5, 0x6, 0x7, 0xB, 0xC, 0xD, 0xE, 0xF] : List Nat) →
        isErr (readFrame ws gs ((0x80 ||| op) :: rest)) = true) ∧
    (∀ c0 c1 c2 c3 c4 c5 c6 c7 rest,
        global_frame_max_size <
          toInt64 (c0 <<< 56 ||| c1 <<< 48 ||| c2 <<< 40 ||| c3 <<< 32 |||
                   c4 <<< 24 ||| c5 <<< 16 ||| c6 <<< 8 ||| c7) →
        isErr (readFrame ws gs
          (0x81 :: 127 :: ([c0, c1, c2, c3, c4, c5, c6, c7] ++ rest))) = true) ∧
    (∀ input, isErr (readFrame ws gs input) = true →
        (readLoopStep ws gs input).1.is_open = false ∧
        (readLoopStep ws gs input).2.2.1.textCalls = [] ∧
        (readLoopStep ws gs input).2.2.1.binaryCalls = [] ∧
        (readLoopStep ws gs input).2.2.2 = false) := by
  refine ⟨?_, ?_, ?_, ?_, ?_⟩
  · intro b1 rest hfin
    have hb : (b1 &&& 0x80 == 0x80) = false := by
      rw [beq_eq_false_iff_ne]; exact hfin
    simp [readFrame, parseFrame, hopen, hb, isErr]
  · intro b1 rest hrsv
    cases hfin : (b1 &&& 0x80 == 0x80) with
    | false => simp [readFrame, parseFrame, hopen, hfin, isErr]
    | true =>
      have h1 : ((b1 &&& 0x40 == 0x40) || (b1 &&& 0x20 == 0x20) ||
          (b1 &&& 0x10 == 0x10)) = true := by
        rcases hrsv with h | h | h <;> simp [h]
      simp [readFrame, parseFrame, hopen, hfin, h1, isErr]
  · intro op rest hmem
    have hfin : ((0x80 ||| op) &&& 0x80 == 0x80) = true := by
      fin_cases hmem <;> decide
    have hrsv1 : ((0x80 ||| op) &&& 0x40 == 0x40) = false := by
      fin_cases hmem <;> decide
    have hrsv2 : ((0x80 ||| op) &&& 0x20 == 0x20) = false := by
      fin_cases hmem <;> decide
    have hrsv3 : ((0x80 ||| op) &&& 0x10 == 0x10) = false := by
      fin_cases hmem <;> decide
    have hbad : ((0x80 ||| op) &&& 0x0F == OPCODE_CONTINUATION ||
        (0x80 ||| op) &&& 0x0F == OPCODE_TEXT ||
        (0x80 ||| op) &&& 0x0F == OPCODE_BINARY ||
        (0x80 ||| op) &&& 0x0F == OPCODE_CLOSE ||
        (0x80 ||| op) &&& 0x0F == OPCODE_PING ||
        (0x80 ||| op) &&& 0x0F == OPCODE_PONG) = false := by
      fin_cases hmem <;> decide
    simp only [readFrame, parseFrame, hopen, hfin, hrsv1, hrsv2, hrsv3, hbad]
    simp [isErr]
  · intro c0 c1 c2 c3 c4 c5 c6 c7 rest hbig
    have hfin : ((0x81 : Nat) &&& 0x80 == 0x80) = true := by decide
    have hrsv1 : ((0x81 : Nat) &&& 0x40 == 0x40) = false := by decide
    have hrsv2 : ((0x81 : Nat) &&& 0x20 == 0x20) = false := by decide
    have hrsv3 : ((0x81 : Nat) &&& 0x10 == 0x10) = false := by decide
    have hgood : ((0x81 : Nat) &&& 0x0F == OPCODE_CONTINUATION ||
        (0x81 : Nat) &&& 0x0F == OPCODE_TEXT ||
        (0x81 : Nat) &&& 0x0F == OPCODE_BINARY ||
        (0x81 : Nat) &&& 0x0F == OPCODE_CLOSE ||
        (0x81 : Nat) &&& 0x0F == OPCODE_PING ||
        (0x81 : Nat) &&& 0x0F == OPCODE_PONG) = true := by decide
    have hmask : ((127 : Nat) &&& 0x80 == 0x80) = false := by decide
    have h127 : (127 : Nat) &&& 0x7F = 127 := by decide
    have hlen8 : 8 ≤ ([c0, c1, c2, c3, c4, c5, c6, c7] ++ rest).length := by
      simp
    have ht8 : ([c0, c1, c2, c3, c4, c5, c6, c7] ++ rest).take 8 =
        [c0, c1, c2, c3, c4, c5, c6, c7] := List.take_left' (by simp)
    have hg0 : ([c0, c1, c2, c3, c4, c5, c6, c7] : List Nat).getD 0 0 = c0 := rfl
    have hg1 : ([c0, c1, c2, c3, c4, c5, c6, c7] : List Nat).getD 1 0 = c1 := rfl
    have hg2 : ([c0, c1, c2, c3, c4, c5, c6, c7] : List Nat).getD 2 0 = c2 := rfl
    have hg3 : ([c0, c1, c2, c3, c4, c5, c6, c7] : List Nat).getD 3 0 = c3 := rfl
    have hg4 : ([c0, c1, c2, c3, c4, c5, c6, c7] : List Nat).getD 4 0 = c4 := rfl
    have hg5 : ([c0, c1, c2, c3, c4, c5, c6, c7] : List Nat).getD 5 0 = c5 := rfl
    have hg6 : ([c0, c1, c2, c3, c4, c5, c6, c7] : List Nat).getD 6 0 = c6 := rfl
    have hg7 : ([c0, c1, c2, c3, c4, c5, c6, c7] : List Nat).getD 7 0 = c7 := rfl
    simp only [readFrame, parseFrame, readExact, hopen, hfin, hrsv1, hrsv2, hrsv3,
      hgood, hmask, h127, hlen8, ht8, hg0, hg1, hg2, hg3, hg4, hg5, hg6, hg7]
    simp [hbig, isErr]
  · intro input herr
    cases hrf : readFrame ws gs input with
    | error e =>
      simp [readLoopStep, hrf, closeWebSocket, hopen]
    | ok v =>
      rw [hrf] at herr
      simp [isErr] at herr

theorem malformed_frames_rejected_witness :
    wsOpen.is_open = true ∧
      isErr (readFrame wsOpen gs1 [0x01, 0x00]) = true ∧
      isErr (readFrame wsOpen gs1 [0xC1, 0x00]) = true ∧
      isErr (readFrame wsOpen gs1 [0x83, 0x00]) = true ∧
      isErr (readFrame wsOpen gs1
        (0x81 :: 127 :: ([0, 0, 0, 0, 0, 16, 0, 1] ++ []))) = true ∧
      (readLoopStep wsOpen gs1 [0x01, 0x00]).1.is_open = false :=
  ⟨rfl,
   (malformed_frames_rejected wsOpen gs1 rfl).1 0x01 [0x00] (by decide),
   (malformed_frames_rejected wsOpen gs1 rfl).2.1 0xC1 [0x00] (by decide),
   (malformed_frames_rejected wsOpen gs1 rfl).2.2.1 0x3 [0x00] (by decide),
   (malformed_frames_rejected wsOpen gs1 rfl).2.2.2.1 0 0 0 0 0 16 0 1 [] (by decide),
   ((malformed_frames_rejected wsOpen gs1 rfl).2.2.2.2 [0x01, 0x00] (by decide)).1⟩

/-- C1: for every successful upgrade (where the negotiated protocol and
extensions are always empty), the handshake response is exactly the literal
status line, the Upgrade/Connection/Sec-WebSocket-Accept headers and a
blank line, with the accept value base64(SHA-1(client_key + GUID)); and for
the RFC 6455 sample client key the accept value is the expected constant. -/
theorem handshake_response_correct :
    (∀ key : String,
        sendWebSocketHandshakeResponse key "" "" =
          "HTTP/1.1 101 Switching Protocols\r\n" ++ "Upgrade: websocket\r\n" ++
            "Connection: Upgrade\r\n" ++
            ("Sec-WebSocket-Accept: " ++ computeAcceptKey key ++ "\r\n") ++ "\r\n") ∧
    computeAcceptKey "dGhlIHNhbXBsZSBub25jZQ==" = "s3pPLMBiTxaQ9kYGzzhZRbK+xOo=" := by
  constructor
  · intro key
    simp [sendWebSocketHandshakeResponse]
  · rfl

end GoWebsocket
